import Mathlib

/-!
Verification of the tagged-error matcher.

Shallow embedding of the tagged-error pattern-matching library:

* `TaggedErrorConstructor`, `taggedErrorFactory` — the tagged-error entity
  (source: `TaggedError.ts`).  An instance stores its discriminant in the
  private field `#tag`, readable only through the `tag` getter.  `ErrorOptions`
  (the optional `cause` of an instance) is not modelled: no observed behaviour
  reads it back.
* `handle` / `Handler.when` — the matcher facade (source: the unnamed matcher
  module exporting `handle(value)` and `class Handler` with method `when`).
* `HandleTs.handle` and `TaggedErrorConstructor.staticMatch` — the standalone
  two-argument `handle(error, cases)` of `handle.ts` and the static
  `TaggedError.match(error, cases)` method (`match` is a Lean keyword, hence
  the name `staticMatch`).

JavaScript values that can flow through the matcher are modelled by `JSValue`;
abrupt termination (a `throw`) is modelled by the `Except Thrown` monadic
result.  Handler functions supplied in a case table are modelled as Lean
functions `JSValue → JSValue`; a function value given as the *input* of the
matcher is opaque (`JSValue.funcV`) because the matcher never invokes it.
-/

/-- An instance of the abstract class `TaggedErrorConstructor` of
`TaggedError.ts`: the constructor stores `tag` in the private field `#tag`
(modelled as `privateTag`) and the message in the inherited `Error` state.
The class declares no setter for `#tag`. -/
structure TaggedErrorConstructor where
  privateTag : String
  message : String
deriving DecidableEq

/-- The public `tag` getter: `get tag() { return this.#tag; }`. -/
def TaggedErrorConstructor.tag (e : TaggedErrorConstructor) : String :=
  e.privateTag

/-- `taggedErrorFactory(tag)` returns an anonymous subclass whose constructor
`(message?, options?)` calls `super(tag, message, options)`; constructing an
instance of that subclass is therefore constructing a `TaggedErrorConstructor`
with the factory's fixed tag. -/
def taggedErrorFactory (tag : String) (message : String) : TaggedErrorConstructor :=
  { privateTag := tag, message := message }

/-- A JavaScript `Error` value as seen by the matcher: either an instance of
`TaggedError` (the `instanceof TaggedError` test succeeds) or a plain error.
A plain error carries its runtime `name` property and its message. -/
inductive JSError where
  | tagged (inst : TaggedErrorConstructor)
  | plain (name : String) (message : String)
deriving DecidableEq

/-- The runtime `name` property of an error instance.  For a `TaggedError`
instance the lookup walks the prototype chain up to `Error.prototype.name`,
which is `"Error"`: `fixName` only patches the `name` of the constructor
function (and `Symbol.toStringTag`), never a `name` property on the
prototype, so instances report `"Error"`. -/
def JSError.name : JSError → String
  | .tagged _ => "Error"
  | .plain n _ => n

/-- The `message` property of an error instance. -/
def JSError.message : JSError → String
  | .tagged inst => inst.message
  | .plain _ m => m

/-- JavaScript values flowing through the matcher.  `funcV` is an opaque
function value (the matcher never calls a function given as its input). -/
inductive JSValue where
  | jsNull
  | num (n : Int)
  | str (s : String)
  | errV (e : JSError)
  | funcV (id : Nat)
deriving DecidableEq

/-- An abrupt completion of a `when` call: either the classified input
re-raised by the `'throw'` sentinel, or a thrown `TypeError` (with its
message and optional `cause`), or a thrown plain `Error` (used by the
standalone `handle` and the static match, which throw `new Error(...)`). -/
inductive Thrown where
  | rethrown (e : JSError)
  | typeError (message : String) (cause : Option JSError)
  | errorThrown (message : String)
deriving DecidableEq

/-- One value of the caller-supplied case table (`Record<string, unknown>`):
a string (the sentinels `'throw'` and `'null'` are strings), a function, or
any other value. `other` never holds a string or a function. -/
inductive CaseEntry where
  | str (s : String)
  | fn (f : JSValue → JSValue)
  | other (v : JSValue)

/-- A case table: JavaScript property access `cases[k]` yields `none` when
the key is absent (or explicitly `undefined`, which the code treats
identically via `typeof handler === 'undefined'`). -/
abbrev CaseTable : Type := String → Option CaseEntry

/-- `typeof handler === 'function'` for a case-table entry. -/
def CaseEntry.isFnEntry : CaseEntry → Bool
  | .fn _ => true
  | _ => false

/-- `handler === s` for a string literal `s`. -/
def CaseEntry.isStr (e : CaseEntry) (s : String) : Bool :=
  match e with
  | .str t => t == s
  | _ => false

/-- An entry that the error branch of `when` accepts without throwing
`Invalid handler provided`: the sentinel `'throw'`, the sentinel `'null'`,
or a function. -/
def isValidErrEntry (e : CaseEntry) : Bool :=
  e.isStr "throw" || e.isStr "null" || e.isFnEntry

/-- The body of the error-branch loop of `Handler.when` for one defined
entry `{ tag: label, handler }`:

```
if (handler === 'throw')      throw input;
else if (handler === 'null')  return null;
else if (typeof handler === 'function') return handler(input);
throw new TypeError(`Invalid handler provided for ${tag}`);
```
-/
def applyEntry (input : JSError) (label : String) (handler : CaseEntry) :
    Except Thrown JSValue :=
  if handler.isStr "throw" then .error (.rethrown input)
  else if handler.isStr "null" then .ok .jsNull
  else
    match handler with
    | .fn f => .ok (f (.errV input))
    | _ => .error (.typeError ("Invalid handler provided for " ++ label) none)

/-- The `for (const { tag, handler } of handlers)` loop of `Handler.when`:
skip `undefined` entries; the first defined entry is applied (and the loop
exits by `return` or `throw`); if no entry is defined the call throws
`TypeError('Unhandled error: [name: message]', { cause: input })`. -/
def whenLoop (input : JSError) :
    List (String × Option CaseEntry) → Except Thrown JSValue
  | [] =>
      .error (.typeError
        ("Unhandled error: [" ++ input.name ++ ": " ++ input.message ++ "]")
        (some input))
  | (_, none) :: rest => whenLoop input rest
  | (label, some h) :: _ => applyEntry input label h

/-- The matcher object produced by `handle(value)`: it only stores the input. -/
structure Handler where
  input : JSValue

/-- `handle(value)` — `return new Handler(value)`.  The input is stored
as-is; in particular a function value is *not* invoked. -/
def handle (value : JSValue) : Handler := ⟨value⟩

/-- `Handler.when(cases)`.  For an `Error` input the code builds
`handlers = [{tag: 'Error', handler: cases['error']}]` and, when the input is
`instanceof TaggedError`, unshifts `{tag: input.tag, handler: cases[input.tag]}`
in front, then runs the loop (`whenLoop`).  For any other input it reads
`cases['default']`: absent ⇒ `TypeError('No default handler provided for
value')`; defined but not a function ⇒ `TypeError('Invalid default handler
provided')`; a function ⇒ its application to the input. -/
def Handler.when (self : Handler) (cases : CaseTable) : Except Thrown JSValue :=
  match self.input with
  | .errV (.tagged inst) =>
      whenLoop (.tagged inst)
        [(inst.tag, cases inst.tag), ("Error", cases "error")]
  | .errV (.plain n m) =>
      whenLoop (.plain n m) [("Error", cases "error")]
  | input =>
      match cases "default" with
      | none => .error (.typeError "No default handler provided for value" none)
      | some (.fn f) => .ok (f input)
      | some _ => .error (.typeError "Invalid default handler provided" none)

deriving instance DecidableEq for Except

/-- The empty case table (`{}`). -/
def emptyCases : CaseTable := fun _ => none

-- Sanity: scenario "match(new Error('boom')).when({}) fails Unhandled".
example :
    (handle (.errV (.plain "Error" "boom"))).when emptyCases =
      .error (.typeError "Unhandled error: [Error: boom]"
        (some (.plain "Error" "boom"))) := by decide

-- Sanity: tagged input dispatches on its tag entry.
example :
    (handle (.errV (.tagged ⟨"TimeoutError", "t"⟩))).when
      (fun k => if k = "TimeoutError" then some (.str "null") else none) =
      .ok .jsNull := by decide

/-- `typeof v` is not an `Error` instance (`instanceof Error` fails). -/
def JSValue.isErr : JSValue → Bool
  | .errV _ => true
  | _ => false

lemma applyEntry_invalid (input : JSError) (label : String) (h : CaseEntry)
    (hv : isValidErrEntry h = false) :
    applyEntry input label h =
      .error (.typeError ("Invalid handler provided for " ++ label) none) := by
  cases h with
  | str s =>
      simp [isValidErrEntry, CaseEntry.isStr, CaseEntry.isFnEntry] at hv
      obtain ⟨h1, h2⟩ := hv
      simp [applyEntry, CaseEntry.isStr, h1, h2]
  | fn f => simp [isValidErrEntry, CaseEntry.isFnEntry] at hv
  | other v => simp [applyEntry, CaseEntry.isStr]

lemma when_tagged_tagSelected (inst : TaggedErrorConstructor) (c : CaseTable)
    (h : CaseEntry) (hh : c inst.tag = some h) :
    (handle (.errV (.tagged inst))).when c = applyEntry (.tagged inst) inst.tag h := by
  simp [handle, Handler.when, hh, whenLoop]

lemma when_tagged_errorSelected (inst : TaggedErrorConstructor) (c : CaseTable)
    (g : CaseEntry) (h0 : c inst.tag = none) (hg : c "error" = some g) :
    (handle (.errV (.tagged inst))).when c = applyEntry (.tagged inst) "Error" g := by
  simp [handle, Handler.when, h0, hg, whenLoop]

lemma when_plain_errorSelected (n m : String) (c : CaseTable)
    (g : CaseEntry) (hg : c "error" = some g) :
    (handle (.errV (.plain n m))).when c = applyEntry (.plain n m) "Error" g := by
  simp [handle, Handler.when, hg, whenLoop]

lemma when_tagged_unhandled (inst : TaggedErrorConstructor) (c : CaseTable)
    (h0 : c inst.tag = none) (h1 : c "error" = none) :
    (handle (.errV (.tagged inst))).when c =
      .error (.typeError ("Unhandled error: [Error: " ++ inst.message ++ "]")
        (some (.tagged inst))) := by
  simp [handle, Handler.when, h0, h1, whenLoop, JSError.name, JSError.message]

lemma when_plain_unhandled (n m : String) (c : CaseTable) (h1 : c "error" = none) :
    (handle (.errV (.plain n m))).when c =
      .error (.typeError ("Unhandled error: [" ++ n ++ ": " ++ m ++ "]")
        (some (.plain n m))) := by
  simp [handle, Handler.when, h1, whenLoop, JSError.name, JSError.message]

lemma when_value_branch (v : JSValue) (c : CaseTable) (hv : v.isErr = false) :
    (handle v).when c =
      (match c "default" with
        | none => .error (.typeError "No default handler provided for value" none)
        | some (.fn f) => .ok (f v)
        | some _ => .error (.typeError "Invalid default handler provided" none)) := by
  cases v <;> simp [JSValue.isErr] at hv ⊢ <;> rfl

/-- C1 (code bug): the spec (and the repository's own usage examples and
authoring notes) state that a plain value input with no `value` entry is
returned unchanged — `match(42).when({})` yields `42`.  The code's value
branch instead reads `cases['default']` and, finding it absent, throws
`TypeError('No default handler provided for value')`.  This theorem
evaluates the embedded code at the failing input. -/
theorem when_value_without_default_entry_fails_eval :
    (handle (.num 42)).when emptyCases =
      .error (.typeError "No default handler provided for value" none) := rfl

/-- The case table `{error: e => e.message}` of spec scenario 6. -/
def c2Cases : CaseTable := fun k =>
  if k = "error" then
    some (.fn (fun v => match v with
      | .errV e => .str e.message
      | _ => .jsNull))
  else none

/-- C2 (code bug): the spec states a synchronous zero-argument producer is
invoked once before classification, its thrown value (wrapped unless already
an error) fed into normal matching — `match(() => { throw new
RangeError("x"); }).when({error: e => e.message})` yields `"x"`.  The code
never invokes a function input: `handle` stores it as-is and `when`
classifies it as a non-`Error` value, finds no `default` entry and throws
`TypeError('No default handler provided for value')`.  This theorem
evaluates the embedded code at the failing input (the producer is opaque in
the model precisely because the code contains no call to it). -/
theorem when_sync_producer_not_invoked_eval :
    (handle (.funcV 0)).when c2Cases =
      .error (.typeError "No default handler provided for value" none) := rfl

/-- C3: for a tagged input whose tag has a direct entry in the case table,
that entry is selected (with its handler/sentinel semantics, `applyEntry`)
whatever the `error` entry holds; the `error` entry is consulted only when
the tag entry is absent, and then the instance itself is passed to it
(`applyEntry` hands `.errV (.tagged inst)` to a function handler). -/
theorem when_tag_entry_takes_priority (inst : TaggedErrorConstructor) (c : CaseTable) :
    (∀ h, c inst.tag = some h →
      (handle (.errV (.tagged inst))).when c = applyEntry (.tagged inst) inst.tag h)
    ∧ (c inst.tag = none → ∀ g, c "error" = some g →
      (handle (.errV (.tagged inst))).when c = applyEntry (.tagged inst) "Error" g) :=
  ⟨fun h hh => when_tagged_tagSelected inst c h hh,
   fun h0 g hg => when_tagged_errorSelected inst c g h0 hg⟩

/-- Case table with both a tag entry and an `error` entry. -/
def c3Cases : CaseTable := fun k =>
  if k = "TimeoutError" then some (.str "null")
  else if k = "error" then some (.str "throw") else none

/-- C3 witness: with both entries present, the tag entry (`'null'`) wins over
the `error` entry (`'throw'`). -/
theorem when_tag_entry_takes_priority_witness :
    (handle (.errV (.tagged ⟨"TimeoutError", "t"⟩))).when c3Cases =
      applyEntry (.tagged ⟨"TimeoutError", "t"⟩) "TimeoutError" (.str "null") :=
  (when_tag_entry_takes_priority ⟨"TimeoutError", "t"⟩ c3Cases).1 (.str "null") rfl

/-- C4: a tagged input whose tag has no entry and with no `error` entry, and
a plain error input with no `error` entry, both make `when` throw (a hard
failure, `Except.error`, never a normal result).  The code realises both
failures as `TypeError('Unhandled error: [name: message]', {cause: input})`. -/
theorem when_unhandled_inputs_hard_fail (c : CaseTable) :
    (∀ inst, c inst.tag = none → c "error" = none →
      (handle (.errV (.tagged inst))).when c =
        .error (.typeError ("Unhandled error: [Error: " ++ inst.message ++ "]")
          (some (.tagged inst))))
    ∧ (∀ n m, c "error" = none →
      (handle (.errV (.plain n m))).when c =
        .error (.typeError ("Unhandled error: [" ++ n ++ ": " ++ m ++ "]")
          (some (.plain n m)))) :=
  ⟨fun inst h0 h1 => when_tagged_unhandled inst c h0 h1,
   fun n m h1 => when_plain_unhandled n m c h1⟩

/-- C4 witness: spec scenario 3, `match(new TimeoutError()).when({})`
hard-fails. -/
theorem when_unhandled_inputs_hard_fail_witness :
    (handle (.errV (.tagged ⟨"TimeoutError", ""⟩))).when emptyCases =
      .error (.typeError ("Unhandled error: [Error: " ++ "" ++ "]")
        (some (.tagged ⟨"TimeoutError", ""⟩))) :=
  (when_unhandled_inputs_hard_fail emptyCases).1 ⟨"TimeoutError", ""⟩ rfl rfl

/-- C5: whenever the selected handler (the tag entry for a tagged input, or
the `error` entry reached through the fallback chain) is the `'throw'`
sentinel, `when` re-raises exactly the classified input itself, unwrapped. -/
theorem when_throw_sentinel_reraises (e : JSError) (c : CaseTable)
    (hsel : match e with
      | .tagged inst => c inst.tag = some (.str "throw")
          ∨ (c inst.tag = none ∧ c "error" = some (.str "throw"))
      | .plain _ _ => c "error" = some (.str "throw")) :
    (handle (.errV e)).when c = .error (.rethrown e) := by
  cases e with
  | tagged inst =>
      rcases hsel with hh | ⟨h0, hg⟩
      · rw [when_tagged_tagSelected inst c _ hh]; rfl
      · rw [when_tagged_errorSelected inst c _ h0 hg]; rfl
  | plain n m =>
      rw [when_plain_errorSelected n m c _ hsel]; rfl

/-- The case table `{value: v => "unused", error: "throw"}` of scenario 4. -/
def c5Cases : CaseTable := fun k =>
  if k = "value" then some (.fn (fun _ => .str "unused"))
  else if k = "error" then some (.str "throw") else none

/-- C5 witness: `match(new Error("boom")).when({value: v => "unused", error:
"throw"})` re-raises that same `Error("boom")`. -/
theorem when_throw_sentinel_reraises_witness :
    (handle (.errV (.plain "Error" "boom"))).when c5Cases =
      .error (.rethrown (.plain "Error" "boom")) :=
  when_throw_sentinel_reraises (.plain "Error" "boom") c5Cases rfl

/-- C9: whenever the selected tag-handler or error-handler is the `'null'`
sentinel, `when` ignores the input and produces the value `null`. -/
theorem when_null_sentinel_returns_null (e : JSError) (c : CaseTable)
    (hsel : match e with
      | .tagged inst => c inst.tag = some (.str "null")
          ∨ (c inst.tag = none ∧ c "error" = some (.str "null"))
      | .plain _ _ => c "error" = some (.str "null")) :
    (handle (.errV e)).when c = .ok .jsNull := by
  cases e with
  | tagged inst =>
      rcases hsel with hh | ⟨h0, hg⟩
      · rw [when_tagged_tagSelected inst c _ hh]; rfl
      · rw [when_tagged_errorSelected inst c _ h0 hg]; rfl
  | plain n m =>
      rw [when_plain_errorSelected n m c _ hsel]; rfl

/-- Case table with the `'null'` sentinel under a tag key. -/
def c9Cases : CaseTable := fun k =>
  if k = "TimeoutError" then some (.str "null") else none

/-- C9 witness: a `TimeoutError` input whose tag entry is the `'null'`
sentinel produces `null`. -/
theorem when_null_sentinel_returns_null_witness :
    (handle (.errV (.tagged ⟨"TimeoutError", "t"⟩))).when c9Cases = .ok .jsNull :=
  when_null_sentinel_returns_null (.tagged ⟨"TimeoutError", "t"⟩) c9Cases (Or.inl rfl)

/-- `leadsWith ns hs`: the character list `ns` occurs at the start of `hs`. -/
def leadsWith : List Char → List Char → Bool
  | [], _ => true
  | _ :: _, [] => false
  | n :: ns, h :: hs => n == h && leadsWith ns hs

/-- `hasSub ns hs`: the character list `ns` occurs contiguously in `hs`. -/
def hasSub (needle : List Char) : List Char → Bool
  | [] => leadsWith needle []
  | h :: hs => leadsWith needle (h :: hs) || hasSub needle hs

/-- The case-table keys that a `when` call with this input can ever read:
the input's tag and `error` for a tagged input, `error` for a plain error,
`default` for everything else. -/
def relevantKeys : JSValue → List String
  | .errV (.tagged inst) => [inst.tag, "error"]
  | .errV (.plain _ _) => ["error"]
  | _ => ["default"]

/-- The case table `{error: 42}` — a defined but invalid `error` handler. -/
def c6Cases : CaseTable := fun k =>
  if k = "error" then some (.other (.num 42)) else none

/-- C6 counterexample: the claim says an invalid selected handler makes
`when` fail "naming the offending key".  For a plain error and the table
`{error: 42}` the selected handler is invalid and `when` throws
`TypeError('Invalid handler provided for Error')` — the message names the
hard-coded label `Error`, and the offending case-table key `error`
(lower-case) does not occur in it. -/
theorem when_invalid_error_entry_counterexample :
    (handle (.errV (.plain "Error" "boom"))).when c6Cases =
      .error (.typeError "Invalid handler provided for Error" none)
    ∧ hasSub "error".toList "Invalid handler provided for Error".toList = false := by
  constructor
  · rfl
  · decide

/-- C6 (amended): only the handler actually selected by classification and
the fallback chain is validated.  If the selected handler is invalid, `when`
fails immediately with a `TypeError` naming the selected entry's label — the
input's tag for a tag entry, the fixed capitalised label `Error` for the
`error` entry, and the words `default handler` for the value branch — and
entries under keys the classification does not reach are never read, so they
are never validated and never cause a failure (last conjunct: the result
depends only on the entries under `relevantKeys`). -/
theorem when_validates_only_selected_handler (c : CaseTable) :
    (∀ inst h, c inst.tag = some h → isValidErrEntry h = false →
      (handle (.errV (.tagged inst))).when c =
        .error (.typeError ("Invalid handler provided for " ++ inst.tag) none))
    ∧ (∀ inst h, c inst.tag = none → c "error" = some h → isValidErrEntry h = false →
      (handle (.errV (.tagged inst))).when c =
        .error (.typeError "Invalid handler provided for Error" none))
    ∧ (∀ n m h, c "error" = some h → isValidErrEntry h = false →
      (handle (.errV (.plain n m))).when c =
        .error (.typeError "Invalid handler provided for Error" none))
    ∧ (∀ v h, v.isErr = false → c "default" = some h → h.isFnEntry = false →
      (handle v).when c = .error (.typeError "Invalid default handler provided" none))
    ∧ (∀ v (c₂ : CaseTable), (∀ k ∈ relevantKeys v, c k = c₂ k) →
      (handle v).when c = (handle v).when c₂) := by
  refine ⟨?_, ?_, ?_, ?_, ?_⟩
  · intro inst h hh hv
    rw [when_tagged_tagSelected inst c h hh, applyEntry_invalid _ _ _ hv]
  · intro inst h h0 hg hv
    rw [when_tagged_errorSelected inst c h h0 hg, applyEntry_invalid _ _ _ hv]
    rfl
  · intro n m h hg hv
    rw [when_plain_errorSelected n m c h hg, applyEntry_invalid _ _ _ hv]
    rfl
  · intro v h hv hd hfn
    rw [when_value_branch v c hv, hd]
    cases h with
    | str s => rfl
    | fn f => simp [CaseEntry.isFnEntry] at hfn
    | other w => rfl
  · intro v c₂ hagree
    cases v with
    | errV e =>
        cases e with
        | tagged inst =>
            have h1 := hagree inst.tag (by simp [relevantKeys])
            have h2 := hagree "error" (by simp [relevantKeys])
            simp only [handle, Handler.when]
            rw [h1, h2]
        | plain n m =>
            have h2 := hagree "error" (by simp [relevantKeys])
            simp only [handle, Handler.when]
            rw [h2]
    | jsNull =>
        have hd := hagree "default" (by simp [relevantKeys])
        simp only [handle, Handler.when]
        rw [hd]
    | num n =>
        have hd := hagree "default" (by simp [relevantKeys])
        simp only [handle, Handler.when]
        rw [hd]
    | str s =>
        have hd := hagree "default" (by simp [relevantKeys])
        simp only [handle, Handler.when]
        rw [hd]
    | funcV i =>
        have hd := hagree "default" (by simp [relevantKeys])
        simp only [handle, Handler.when]
        rw [hd]

/-- C6 witness: the amended theorem applied at the plain error `boom` and
the table `{error: 42}`. -/
theorem when_validates_only_selected_handler_witness :
    (handle (.errV (.plain "Error" "boom"))).when c6Cases =
      .error (.typeError "Invalid handler provided for Error" none) :=
  (when_validates_only_selected_handler c6Cases).2.2.1 "Error" "boom"
    (.other (.num 42)) rfl rfl

/-- The tag reachable from a thrown failure through its attached `cause`. -/
def Thrown.causeTag : Thrown → Option String
  | .typeError _ (some (.tagged inst)) => some inst.tag
  | _ => none

/-- C7 counterexample: the claim says the failure for a tagged input with no
matching entry identifies that input's tag.  For `new TimeoutError("t")` and
an empty table, `when` throws `TypeError('Unhandled error: [Error: t]')`:
the message reports the instance's runtime `name` (which is `Error`, since
`fixName` never patches the prototype's `name`) and its message — the tag
`TimeoutError` does not occur in it.  The tag survives only in the attached
`cause`. -/
theorem when_unhandled_tagged_counterexample :
    (handle (.errV (.tagged ⟨"TimeoutError", "t"⟩))).when emptyCases =
      .error (.typeError "Unhandled error: [Error: t]"
        (some (.tagged ⟨"TimeoutError", "t"⟩)))
    ∧ hasSub "TimeoutError".toList "Unhandled error: [Error: t]".toList = false := by
  constructor
  · rfl
  · decide

/-- C7 (amended): `InvalidHandler` failures name the selected entry's label
in their message (the input's tag for a tag entry, the fixed label `Error`
for the `error` entry); unhandled failures do not put the tag in their
message — which shows the instance's runtime name `Error` and its message —
but attach the classified input itself as `cause`, so the offending tag is
still carried by the failure (`Thrown.causeTag`). -/
theorem when_failures_carry_label_or_cause (c : CaseTable) :
    (∀ inst, c inst.tag = none → c "error" = none →
      (handle (.errV (.tagged inst))).when c =
        .error (.typeError ("Unhandled error: [Error: " ++ inst.message ++ "]")
          (some (.tagged inst)))
      ∧ ∀ th, (handle (.errV (.tagged inst))).when c = .error th →
          th.causeTag = some inst.tag)
    ∧ (∀ inst h, c inst.tag = some h → isValidErrEntry h = false →
      (handle (.errV (.tagged inst))).when c =
        .error (.typeError ("Invalid handler provided for " ++ inst.tag) none))
    ∧ (∀ n m h, c "error" = some h → isValidErrEntry h = false →
      (handle (.errV (.plain n m))).when c =
        .error (.typeError "Invalid handler provided for Error" none)) := by
  refine ⟨?_, ?_, ?_⟩
  · intro inst h0 h1
    have he := when_tagged_unhandled inst c h0 h1
    refine ⟨he, ?_⟩
    intro th hth
    rw [he] at hth
    cases hth
    rfl
  · intro inst h hh hv
    rw [when_tagged_tagSelected inst c h hh, applyEntry_invalid _ _ _ hv]
  · intro n m h hg hv
    rw [when_plain_errorSelected n m c h hg, applyEntry_invalid _ _ _ hv]
    rfl

/-- C7 witness: the amended theorem applied at `new TimeoutError("t")` with
the empty table; the failure's cause carries the tag. -/
theorem when_failures_carry_label_or_cause_witness :
    (handle (.errV (.tagged ⟨"TimeoutError", "t"⟩))).when emptyCases =
      .error (.typeError ("Unhandled error: [Error: " ++ "t" ++ "]")
        (some (.tagged ⟨"TimeoutError", "t"⟩))) :=
  ((when_failures_carry_label_or_cause emptyCases).1 ⟨"TimeoutError", "t"⟩ rfl rfl).1

/-- C8: every instance of the concrete variant produced by
`taggedErrorFactory t` reports `.tag = t` (first conjunct), and any two
instances of that same variant report the identical tag (second conjunct).
The source stores the tag in the private field `#tag`, which has a getter
and no setter, so nothing in the program can change it after construction;
the stateless embedding reflects this: `tag` is a pure projection of the
construction arguments. -/
theorem taggedErrorFactory_tag_fixed (t m₁ m₂ : String) :
    (taggedErrorFactory t m₁).tag = t
    ∧ (taggedErrorFactory t m₁).tag = (taggedErrorFactory t m₂).tag :=
  ⟨rfl, rfl⟩

/-- One value of the case table passed to the standalone `handle(error,
cases)` of `handle.ts` or to the static `TaggedError.match(error, cases)`:
a function taking the error instance, or any other value (both functions
only test `typeof cases[k] === 'function'`, so no further structure is
needed). -/
inductive MatchEntry where
  | fn (f : TaggedErrorConstructor → JSValue)
  | other (v : JSValue)

/-- Case table of the standalone `handle` / static match. -/
abbrev MatchCases : Type := String → Option MatchEntry

/-- `typeof e === 'function'`. -/
def MatchEntry.isFn : MatchEntry → Bool
  | .fn _ => true
  | _ => false

/-- `typeof cases[k] === 'function'` (false also when the key is absent). -/
def isFnAt (c : MatchCases) (k : String) : Bool :=
  match c k with
  | some e => e.isFn
  | none => false

namespace HandleTs

/-- The standalone `handle(error, cases)` of `handle.ts`:

```
const tag = error.tag;
if (typeof cases[tag] === 'function') return cases[tag](error);
if ('default' in cases && typeof cases['default'] === 'function')
  return cases['default'](error);
throw new Error(`No case found for tag '${tag}'`);
```

(`'default' in cases && typeof cases['default'] === 'function'` is exactly
"the lookup is a function", which the `Option` model expresses directly). -/
def handle (error : TaggedErrorConstructor) (cases : MatchCases) :
    Except Thrown JSValue :=
  match cases error.tag with
  | some (.fn f) => .ok (f error)
  | _ =>
    match cases "default" with
    | some (.fn f) => .ok (f error)
    | _ => .error (.errorThrown ("No case found for tag '" ++ error.tag ++ "'"))

end HandleTs

/-- The static `TaggedError.match(error, cases)` of `TaggedError.ts` — same
body as `HandleTs.handle` with wildcard key `'*'` instead of `'default'`
(`match` is a Lean keyword, hence the name `staticMatch`). -/
def TaggedErrorConstructor.staticMatch (error : TaggedErrorConstructor)
    (cases : MatchCases) : Except Thrown JSValue :=
  match cases error.tag with
  | some (.fn f) => .ok (f error)
  | _ =>
    match cases "*" with
    | some (.fn f) => .ok (f error)
    | _ => .error (.errorThrown ("No case found for tag '" ++ error.tag ++ "'"))

/-- Rename the wildcard key: exchange the entries under `'default'` and
`'*'`, leaving every other key untouched. -/
def swapWildcard (c : MatchCases) : MatchCases := fun k =>
  if k = "*" then c "default" else if k = "default" then c "*" else c k

lemma isFnAt_false_elim (c : MatchCases) (k : String) (h : isFnAt c k = false) :
    c k = none ∨ ∃ v, c k = some (.other v) := by
  unfold isFnAt at h
  cases hk : c k with
  | none => exact Or.inl rfl
  | some e =>
      cases e with
      | fn f => rw [hk] at h; simp [MatchEntry.isFn] at h
      | other v => exact Or.inr ⟨v, rfl⟩

/-- C10: the standalone `handle` and the static `TaggedError.match` compute
the same result up to the name of the wildcard key (first conjunct: equal
after exchanging the `'default'` and `'*'` entries, provided the input's tag
is not itself one of the two wildcard names).  Both return `cases[tag](e)`
when that entry is a function; both silently skip a present but non-function
tag entry (`isFnAt _ _ = false` covers absent and non-function alike — such
an entry is never reported as an invalid handler) and fall through to their
wildcard entry when that is a function; and both throw
`Error("No case found for tag '<tag>'")` when neither applies. -/
theorem handle_staticMatch_agree (e : TaggedErrorConstructor) (c : MatchCases)
    (h1 : e.tag ≠ "default") (h2 : e.tag ≠ "*") :
    HandleTs.handle e c = e.staticMatch (swapWildcard c)
    ∧ (∀ f, c e.tag = some (.fn f) →
        HandleTs.handle e c = .ok (f e) ∧ e.staticMatch c = .ok (f e))
    ∧ (∀ g, isFnAt c e.tag = false → c "default" = some (.fn g) →
        HandleTs.handle e c = .ok (g e))
    ∧ (∀ g, isFnAt c e.tag = false → c "*" = some (.fn g) →
        e.staticMatch c = .ok (g e))
    ∧ (isFnAt c e.tag = false → isFnAt c "default" = false →
        HandleTs.handle e c =
          .error (.errorThrown ("No case found for tag '" ++ e.tag ++ "'")))
    ∧ (isFnAt c e.tag = false → isFnAt c "*" = false →
        e.staticMatch c =
          .error (.errorThrown ("No case found for tag '" ++ e.tag ++ "'"))) := by
  have ha : swapWildcard c e.tag = c e.tag := by
    simp [swapWildcard, h1, h2]
  have hb : swapWildcard c "*" = c "default" := by
    simp [swapWildcard]
  refine ⟨?_, ?_, ?_, ?_, ?_, ?_⟩
  · unfold HandleTs.handle TaggedErrorConstructor.staticMatch
    rw [ha, hb]
  · intro f hf
    constructor
    · unfold HandleTs.handle; rw [hf]
    · unfold TaggedErrorConstructor.staticMatch; rw [hf]
  · intro g hno hg
    rcases isFnAt_false_elim c e.tag hno with hn | ⟨v, hv⟩
    · unfold HandleTs.handle; rw [hn, hg]
    · unfold HandleTs.handle; rw [hv, hg]
  · intro g hno hg
    rcases isFnAt_false_elim c e.tag hno with hn | ⟨v, hv⟩
    · unfold TaggedErrorConstructor.staticMatch; rw [hn, hg]
    · unfold TaggedErrorConstructor.staticMatch; rw [hv, hg]
  · intro hno hnd
    rcases isFnAt_false_elim c e.tag hno with hn | ⟨v, hv⟩ <;>
      rcases isFnAt_false_elim c "default" hnd with hn' | ⟨w, hw⟩
    · unfold HandleTs.handle; rw [hn, hn']
    · unfold HandleTs.handle; rw [hn, hw]
    · unfold HandleTs.handle; rw [hv, hn']
    · unfold HandleTs.handle; rw [hv, hw]
  · intro hno hnd
    rcases isFnAt_false_elim c e.tag hno with hn | ⟨v, hv⟩ <;>
      rcases isFnAt_false_elim c "*" hnd with hn' | ⟨w, hw⟩
    · unfold TaggedErrorConstructor.staticMatch; rw [hn, hn']
    · unfold TaggedErrorConstructor.staticMatch; rw [hn, hw]
    · unfold TaggedErrorConstructor.staticMatch; rw [hv, hn']
    · unfold TaggedErrorConstructor.staticMatch; rw [hv, hw]

/-- A case table with a non-function tag entry and a `'default'` wildcard,
for the C10 witness. -/
def c10Cases : MatchCases := fun k =>
  if k = "TimeoutError" then some (.other (.num 0))
  else if k = "default" then some (.fn (fun err => .str err.message)) else none

/-- C10 witness: for `new TimeoutError("t")` and a table whose tag entry is
present but not a function, the standalone `handle` equals the static match
on the wildcard-renamed table. -/
theorem handle_staticMatch_agree_witness :
    HandleTs.handle (taggedErrorFactory "TimeoutError" "t") c10Cases =
      (taggedErrorFactory "TimeoutError" "t").staticMatch (swapWildcard c10Cases) :=
  (handle_staticMatch_agree (taggedErrorFactory "TimeoutError" "t") c10Cases
    (by decide) (by decide)).1
